import Mathlib

/-!
# Verification of the DMG emulator core

Shallow embedding of the emulator's Rust sources (`emu.rs`, `bus.rs`, `cart.rs`,
`timer.rs`, `interrupts.rs`, `dma.rs`, `ppu.rs`, `lcd.rs`, `cpu.rs`,
`cpu/register_file.rs`) into Lean.

Conventions of the embedding:
* machine integers (`u8`, `u16`) are `Nat` reduced modulo `2^8` / `2^16` at the
  operations where the Rust code wraps (release-mode wrapping arithmetic);
* Rust panics (`unwrap` on `None`, out-of-bounds indexing, explicit `panic!`)
  are modelled by `Option`-valued functions returning `none`;
* `bitflags` values are plain `Nat` bit masks; `from_bits_truncate` is a
  bitwise `&&&` with the mask of defined bits;
* large byte arrays (the 64 KiB bus image, VRAM, the framebuffer) are modelled
  as functions `Nat → Nat` with pointwise update; OAM is a 40-element list of
  sprites, as in the source;
* the SDL front-end fields and the real-time frame-pacing fields of the PPU
  (`timer`, `start_time`, `prev_frame_time`, `frame_count`) carry no emulator
  state and are omitted.
-/

/-- Wrap to an unsigned 8-bit value. -/
def u8 (n : Nat) : Nat := n % 256

/-- Wrap to an unsigned 16-bit value. -/
def u16 (n : Nat) : Nat := n % 65536

/-! ## interrupts.rs -/

/-- Rust `InterruptLine`: the IE/IF pair, 5 defined bits each
(`VBLANK = 1`, `LCD = 2`, `TIMER = 4`, `SERIAL = 8`, `JOYPAD = 16`). -/
structure InterruptLine where
  interruptEnable : Nat
  interruptFlag : Nat
deriving Repr, DecidableEq

def InterruptLine.new : InterruptLine := ⟨0, 0⟩

/-- Rust `InterruptLine::request_interrupt`: `self.interrupt_flag |= f`. -/
def InterruptLine.requestInterrupt (il : InterruptLine) (f : Nat) : InterruptLine :=
  { il with interruptFlag := il.interruptFlag ||| f }

/-- Rust `isolate_rightmost_one`: `f & f.wrapping_neg()` on `u8`. -/
def isolateRightmostOne (f : Nat) : Nat :=
  f &&& (u8 (u8 (255 - u8 f) + 1))

/-- Rust `InterruptFlag::highest_priority`, masked to the five defined bits. -/
def highestPriority (f : Nat) : Nat := isolateRightmostOne f &&& 0x1F

/-! ## timer.rs -/

/-- Rust `Timer`: internal 16-bit divider, TIMA, TMA and TAC (3 defined bits). -/
structure Timer where
  div : Nat
  tima : Nat
  tma : Nat
  tac : Nat
deriving Repr, DecidableEq

/-- Rust `Timer::new`: DIV starts at `0xAC00`. -/
def Timer.new : Timer := ⟨0xAC00, 0, 0, 0⟩

/-- The DIV bit that clocks TIMA for each `TAC & 0b11` rate. -/
def timerSelectedBit (rate : Nat) : Nat :=
  match rate with
  | 0 => 9
  | 1 => 3
  | 2 => 5
  | _ => 7

/-- Rust `Timer::tick`: advance DIV by one T-cycle; on a falling edge of the
selected DIV bit (while TAC enable is set) increment TIMA; when the
incremented TIMA equals `0xFF` the source reloads it from TMA and raises the
TIMER interrupt. -/
def Timer.tick (t : Timer) (il : InterruptLine) : Timer × InterruptLine :=
  let prevDiv := t.div
  let t := { t with div := u16 (t.div + 1) }
  if t.tac &&& 0b100 ≠ 0 then
    let b := timerSelectedBit (t.tac &&& 0b11)
    if (prevDiv >>> b) &&& 1 ≠ 0 ∧ (t.div >>> b) &&& 1 = 0 then
      let tima := u8 (t.tima + 1)
      if tima = 0xFF then
        ({ t with tima := t.tma }, il.requestInterrupt 4)
      else
        ({ t with tima := tima }, il)
    else (t, il)
  else (t, il)

/-- Rust `Timer::read`; only DIV/TIMA/TMA/TAC are routed here by the emulator. -/
def Timer.read (t : Timer) (address : Nat) : Option Nat :=
  if address = 0xFF04 then some (t.div >>> 8)
  else if address = 0xFF05 then some t.tima
  else if address = 0xFF06 then some t.tma
  else if address = 0xFF07 then some t.tac
  else none

/-- Rust `Timer::write`; a DIV write clears the whole 16-bit counter, TAC is
truncated to its three defined bits. Only these four addresses are routed
here by the emulator. -/
def Timer.write (t : Timer) (address value : Nat) : Timer :=
  if address = 0xFF04 then { t with div := 0 }
  else if address = 0xFF05 then { t with tima := value }
  else if address = 0xFF06 then { t with tma := value }
  else if address = 0xFF07 then { t with tac := value &&& 0b111 }
  else t

/-- Iterate `Timer::tick` n times, threading the interrupt line. -/
def timerTicks : Nat → Timer → InterruptLine → Timer × InterruptLine
  | 0, t, il => (t, il)
  | n + 1, t, il => timerTicks n (t.tick il).1 (t.tick il).2

/-! ## cart.rs / bus.rs -/

/-- Rust `Cartridge`: only the raw ROM byte vector is consumed by the bus. -/
structure Cartridge where
  data : List Nat

/-- Rust `MemoryBus`: a flat 64 KiB byte image plus an optional cartridge. -/
structure MemoryBus where
  bytes : Nat → Nat
  rom : Option Cartridge

def MemoryBus.new : MemoryBus := ⟨fun _ => 0, none⟩

/-- Rust `MemoryBus::read` (addresses are `u16` values): ROM regions index the
cartridge's raw byte vector at the unadjusted address and panic (`none`) when
no cartridge is loaded or the index is out of bounds; echo and unusable
regions read 0; everything else reads the flat byte image. -/
def MemoryBus.read (b : MemoryBus) (address : Nat) : Option Nat :=
  if address ≤ 0x7FFF then b.rom.bind fun c => c.data[address]?
  else if address ≤ 0x9FFF then some (b.bytes address)
  else if address ≤ 0xBFFF then b.rom.bind fun c => c.data[address]?
  else if address ≤ 0xCFFF then some (b.bytes address)
  else if address ≤ 0xDFFF then some (b.bytes address)
  else if address ≤ 0xFDFF then some 0
  else if address ≤ 0xFE9F then some (b.bytes address)
  else if address ≤ 0xFEFF then some 0
  else some (b.bytes address)

/-- Rust `MemoryBus::write`: always stores into the flat byte image. -/
def MemoryBus.write (b : MemoryBus) (address value : Nat) : MemoryBus :=
  { b with bytes := fun x => if x = address then value else b.bytes x }

example : (MemoryBus.new.write 7 3).bytes 7 = 3 := by simp [MemoryBus.write, MemoryBus.new]
example : MemoryBus.new.read 0xE005 = some 0 := by decide

/-! ## lcd.rs -/

/-- Rust `DEFAULT_COLORS`: the fixed 4-color ARGB palette. -/
def DEFAULT_COLORS : List Nat := [0xFFFFFFFF, 0xFFAAAAAA, 0xFF555555, 0xFF000000]

/-- The hardware-register enumeration of `bus.rs`. -/
inductive HardwareRegister where
  | P1_JOYP | SB | SC | DIV | TIMA | TMA | TAC | IF
  | LCDC | STAT | SCY | SCX | LY | LYC | DMA | BGP | OBP0 | OBP1 | WY | WX | IE
deriving Repr, DecidableEq

/-- Rust `HardwareRegister::from_u16`. -/
def HardwareRegister.fromU16 (address : Nat) : Option HardwareRegister :=
  if address = 0xFF00 then some .P1_JOYP
  else if address = 0xFF01 then some .SB
  else if address = 0xFF02 then some .SC
  else if address = 0xFF04 then some .DIV
  else if address = 0xFF05 then some .TIMA
  else if address = 0xFF06 then some .TMA
  else if address = 0xFF07 then some .TAC
  else if address = 0xFF0F then some .IF
  else if address = 0xFF40 then some .LCDC
  else if address = 0xFF41 then some .STAT
  else if address = 0xFF42 then some .SCY
  else if address = 0xFF43 then some .SCX
  else if address = 0xFF44 then some .LY
  else if address = 0xFF45 then some .LYC
  else if address = 0xFF46 then some .DMA
  else if address = 0xFF47 then some .BGP
  else if address = 0xFF48 then some .OBP0
  else if address = 0xFF49 then some .OBP1
  else if address = 0xFF4A then some .WY
  else if address = 0xFF4B then some .WX
  else if address = 0xFFFF then some .IE
  else none

/-- Rust `LCD`: control/status registers (LCDC all 8 bits defined; STAT bits 0–6
defined, so `from_bits_truncate` masks with `0x7F`), scroll/window registers,
the palette registers and the three decoded 4-slot color tables. -/
structure LCD where
  lcdc : Nat
  lcds : Nat
  scrollX : Nat
  scrollY : Nat
  ly : Nat
  lyc : Nat
  dmaReg : Nat
  bgPalette : Nat
  objPalette0 : Nat
  objPalette1 : Nat
  winX : Nat
  winY : Nat
  bgColors : List Nat
  sp0Colors : List Nat
  sp1Colors : List Nat
deriving Repr, DecidableEq

/-- Rust `LCD::new`. -/
def LCD.new : LCD :=
  { lcdc := 0x91, lcds := 0, scrollX := 0, scrollY := 0, ly := 0, lyc := 0,
    dmaReg := 0, bgPalette := 0xFC, objPalette0 := 0xFF, objPalette1 := 0xFF,
    winX := 0, winY := 0,
    bgColors := DEFAULT_COLORS, sp0Colors := DEFAULT_COLORS, sp1Colors := DEFAULT_COLORS }

/-- Rust `LCD::get_mode`: the low two STAT bits (0 HBLANK, 1 VBLANK, 2 OAM, 3 XFER). -/
def LCD.getMode (l : LCD) : Nat := l.lcds &&& 0b11

/-- Rust `LCD::set_mode`: clear the PPU_MODE bits and or in the new mode,
truncated to STAT's defined bits. -/
def LCD.setMode (l : LCD) (mode : Nat) : LCD :=
  { l with lcds := ((l.lcds &&& 0xFC) ||| mode) &&& 0x7F }

def LCD.getBgMapArea (l : LCD) : Nat :=
  if l.lcdc &&& 0x08 ≠ 0 then 0x9C00 else 0x9800

def LCD.getWinMapArea (l : LCD) : Nat :=
  if l.lcdc &&& 0x40 ≠ 0 then 0x9C00 else 0x9800

def LCD.getBgwDataArea (l : LCD) : Nat :=
  if l.lcdc &&& 0x10 ≠ 0 then 0x8000 else 0x8800

/-- Rust `LCD::get_sprite_height`: 16 when LCDC bit 2 (OBJ_SIZE) is set, else 8. -/
def LCD.getSpriteHeight (l : LCD) : Nat :=
  if l.lcdc &&& 0x04 ≠ 0 then 16 else 8

/-- Rust `LCD::is_window_visible`. -/
def LCD.isWindowVisible (l : LCD) : Bool :=
  l.lcdc &&& 0x20 ≠ 0 && l.winX ≤ 166 && l.winY < 144

/-- Rust `LCD::update_palette`: decode a 4×2-bit palette byte into four slots of
`DEFAULT_COLORS`. -/
def updatePalette (colorIndices : Nat) : List Nat :=
  [DEFAULT_COLORS.getD (colorIndices &&& 0b11) 0,
   DEFAULT_COLORS.getD ((colorIndices >>> 2) &&& 0b11) 0,
   DEFAULT_COLORS.getD ((colorIndices >>> 4) &&& 0b11) 0,
   DEFAULT_COLORS.getD ((colorIndices >>> 6) &&& 0b11) 0]

/-- Rust `LCD::read`; panics (`none`) for registers not handled by the LCD. -/
def LCD.read (l : LCD) (address : HardwareRegister) : Option Nat :=
  match address with
  | .LCDC => some l.lcdc
  | .STAT => some l.lcds
  | .SCY => some l.scrollY
  | .SCX => some l.scrollX
  | .LY => some l.ly
  | .LYC => some l.lyc
  | .DMA => some l.dmaReg
  | .BGP => some l.bgPalette
  | .OBP0 => some l.objPalette0
  | .OBP1 => some l.objPalette1
  | .WY => some l.winY
  | .WX => some l.winX
  | _ => none

/-- Rust `LCD::write`; BGP/OBP0/OBP1 also refresh the decoded color tables (the
object palettes mask the low two bits first); the DMA arm panics (`none`), as
do registers not handled by the LCD. -/
def LCD.write (l : LCD) (address : HardwareRegister) (value : Nat) : Option LCD :=
  match address with
  | .LCDC => some { l with lcdc := value &&& 0xFF }
  | .STAT => some { l with lcds := value &&& 0x7F }
  | .SCY => some { l with scrollY := value }
  | .SCX => some { l with scrollX := value }
  | .LY => some { l with ly := value }
  | .LYC => some { l with lyc := value }
  | .DMA => none
  | .BGP => some { l with bgPalette := value, bgColors := updatePalette value }
  | .OBP0 => some { l with objPalette0 := value, sp0Colors := updatePalette (value &&& 0b11111100) }
  | .OBP1 => some { l with objPalette1 := value, sp1Colors := updatePalette (value &&& 0b11111100) }
  | .WY => some { l with winY := value }
  | .WX => some { l with winX := value }
  | _ => none

example : updatePalette 0x42 =
    [DEFAULT_COLORS.getD 2 0, DEFAULT_COLORS.getD 0 0,
     DEFAULT_COLORS.getD 0 0, DEFAULT_COLORS.getD 1 0] := by decide

/-! ## ppu.rs -/

/-- Rust `Sprite`: one OAM entry. `flags` is the attribute byte
(`PRIORITY = 0x80`, `Y_FLIP = 0x40`, `X_FLIP = 0x20`, `DMG_PALETTE = 0x10`). -/
structure Sprite where
  y : Nat
  x : Nat
  tileIndex : Nat
  flags : Nat
deriving Repr, DecidableEq

def Sprite.new : Sprite := ⟨0, 0, 0, 0⟩

/-- Rust `FetchState`: the five fetcher states. -/
inductive FetchState where
  | tile | dataLow | dataHigh | idle | push
deriving Repr, DecidableEq

/-- Rust `PixelFifo`: fetcher state, the pixel queue and the fetch scratch bytes
(`bgw0`/`bgw1`/`bgw2` are `bgw_fetch_data[0..2]`, `fetchEntryData` is the
6-byte OAM scratch array). -/
structure PixelFifo where
  fetchState : FetchState
  fifo : List Nat
  lineX : Nat
  pushedX : Nat
  fetchX : Nat
  bgw0 : Nat
  bgw1 : Nat
  bgw2 : Nat
  fetchEntryData : List Nat
  mapY : Nat
  mapX : Nat
  tileY : Nat
  fifoX : Nat
deriving Repr, DecidableEq

def PixelFifo.new : PixelFifo :=
  { fetchState := .tile, fifo := [], lineX := 0, pushedX := 0, fetchX := 0,
    bgw0 := 0, bgw1 := 0, bgw2 := 0, fetchEntryData := List.replicate 6 0,
    mapY := 0, mapX := 0, tileY := 0, fifoX := 0 }

/-- Rust `PPU`: OAM (40 sprites), VRAM, the LCD block, the per-line dot counter,
the framebuffer, the fetcher, the per-line sprite list and the window-line
counter. The real-time frame-pacing fields of the source are omitted. -/
structure PPU where
  oamRam : List Sprite
  vram : Nat → Nat
  lcd : LCD
  currentFrame : Nat
  lineTicks : Nat
  videoBuffer : Nat → Nat
  pixelFifo : PixelFifo
  lineSprites : List Sprite
  fetchedEntries : List Sprite
  windowLine : Nat

/-- Rust `PPU::new`: the LCD starts in OAM mode (STAT low bits = 2). -/
def PPU.new : PPU :=
  { oamRam := List.replicate 40 Sprite.new, vram := fun _ => 0,
    lcd := LCD.new.setMode 2, currentFrame := 0, lineTicks := 0,
    videoBuffer := fun _ => 0, pixelFifo := PixelFifo.new,
    lineSprites := [], fetchedEntries := [], windowLine := 0 }

/-- Rust `PPU::oam_read`: addresses at or above `0xFE00` are rebased; the selected
sprite field is returned. In-range indexing is guaranteed at every call site
of the source. -/
def PPU.oamRead (p : PPU) (address : Nat) : Nat :=
  let oamAddress := if address ≥ 0xFE00 then address - 0xFE00 else address
  let s := p.oamRam.getD (oamAddress / 4) Sprite.new
  match oamAddress % 4 with
  | 0 => s.y
  | 1 => s.x
  | 2 => s.tileIndex
  | _ => s.flags

/-- Rust `PPU::oam_write`: update one field of the selected sprite (the flags byte
is truncated to 8 bits by `from_bits_truncate`). -/
def PPU.oamWrite (p : PPU) (address value : Nat) : PPU :=
  let oamAddress := if address ≥ 0xFE00 then address - 0xFE00 else address
  let i := oamAddress / 4
  let s := p.oamRam.getD i Sprite.new
  let s :=
    match oamAddress % 4 with
    | 0 => { s with y := value }
    | 1 => { s with x := value }
    | 2 => { s with tileIndex := value }
    | _ => { s with flags := value &&& 0xFF }
  { p with oamRam := p.oamRam.set i s }

/-- Rust `PPU::vram_read`: index `address - 0x8000` into VRAM (call sites stay in
range). -/
def PPU.vramRead (p : PPU) (address : Nat) : Nat := p.vram (address - 0x8000)

/-- Rust `PPU::vram_write`. -/
def PPU.vramWrite (p : PPU) (address value : Nat) : PPU :=
  { p with vram := fun x => if x = address - 0x8000 then value else p.vram x }

/-- Rust `VecDeque::insert(i, s)` for the sprite list (`i ≤ length` at every call
site of the source). -/
def spriteListInsert : Nat → Sprite → List Sprite → List Sprite
  | 0, s, l => s :: l
  | _ + 1, s, [] => [s]
  | n + 1, s, x :: xs => x :: spriteListInsert n s xs

/-- The inner insertion loop of `PPU::load_line_sprites`: for `i` in the range
`0..n` captured at loop entry, insert the sprite before every element whose X
is greater (the source has no `break`, so one sprite can be inserted several
times). -/
def spriteInsertLoop (s : Sprite) : Nat → Nat → List Sprite → List Sprite
  | 0, _, l => l
  | fuel + 1, i, l =>
    let l := if (l.getD i Sprite.new).x > s.x then spriteListInsert i s l else l
    spriteInsertLoop s fuel (i + 1) l

/-- The OAM walk of `PPU::load_line_sprites`: skip sprites with X = 0, stop at
10 collected sprites, and place each selected sprite either at the front (when
the list is empty or the front's X is greater) or via the insertion loop.
Comparisons use wrapping `u8` arithmetic as in the source. -/
def loadLineSpritesWalk (ly h : Nat) : List Sprite → List Sprite → List Sprite
  | [], acc => acc
  | s :: rest, acc =>
    if s.x = 0 then loadLineSpritesWalk ly h rest acc
    else if acc.length ≥ 10 then acc
    else if s.y ≤ u8 (ly + 16) ∧ u8 (s.y + h) > u8 (ly + 16) then
      if acc.isEmpty ∨ (acc.headD Sprite.new).x > s.x then
        loadLineSpritesWalk ly h rest (s :: acc)
      else
        loadLineSpritesWalk ly h rest (spriteInsertLoop s acc.length 0 acc)
    else loadLineSpritesWalk ly h rest acc

/-- Rust `PPU::load_line_sprites`. -/
def PPU.loadLineSprites (p : PPU) : PPU :=
  { p with lineSprites :=
      loadLineSpritesWalk p.lcd.ly p.lcd.getSpriteHeight p.oamRam p.lineSprites }

/-- Rust `PPU::tick_oam`. -/
def PPU.tickOam (p : PPU) : PPU :=
  let p :=
    if p.lineTicks ≥ 80 then
      { p with lcd := p.lcd.setMode 3,
               pixelFifo := { p.pixelFifo with
                 fetchState := .tile, lineX := 0, fetchX := 0, pushedX := 0, fifoX := 0 } }
    else p
  if p.lineTicks = 1 then
    ({ p with lineSprites := [] }).loadLineSprites
  else p

/-- Rust `PPU::pipeline_load_window_tile`. -/
def PPU.pipelineLoadWindowTile (p : PPU) : PPU :=
  if ¬ p.lcd.isWindowVisible then p
  else
    let fx7 := u8 (p.pixelFifo.fetchX + 7)
    if fx7 ≥ p.lcd.winX ∧ fx7 < u8 (p.lcd.winX + 144 + 14) ∧
       p.lcd.ly ≥ p.lcd.winY ∧ p.lcd.ly < u8 (p.lcd.winY + 160) then
      let windowTileY := p.windowLine / 8
      let address := p.lcd.getWinMapArea + (fx7 - p.lcd.winX) / 8 + windowTileY * 32
      let b := p.vramRead address
      let b := if p.lcd.getBgwDataArea = 0x8800 then u8 (b + 128) else b
      { p with pixelFifo := { p.pixelFifo with bgw0 := b } }
    else p

/-- The loop of `PPU::pipeline_load_sprite_tile`: collect sprites whose pixel
range overlaps the current fetch column, stopping once three are collected
(the length test runs after each push). `sp_x = (x - 8) + (SCX % 8)` uses
wrapping `u8` arithmetic. -/
def loadSpriteTileWalk (fetchX scrollX : Nat) : List Sprite → List Sprite → List Sprite
  | [], acc => acc
  | e :: rest, acc =>
    let spX := u8 (e.x + 248 + scrollX % 8)
    let hit := (spX ≥ fetchX ∧ spX < u8 (fetchX + 8)) ∨
               (u8 (spX + 8) ≥ fetchX ∧ u8 (spX + 8) < u8 (fetchX + 8))
    let acc := if hit then acc ++ [e] else acc
    if acc.length ≥ 3 then acc else loadSpriteTileWalk fetchX scrollX rest acc

/-- Rust `PPU::pipeline_load_sprite_tile`. -/
def PPU.pipelineLoadSpriteTile (p : PPU) : PPU :=
  { p with fetchedEntries :=
      loadSpriteTileWalk p.pixelFifo.fetchX p.lcd.scrollX p.lineSprites p.fetchedEntries }

/-- The loop of `PPU::pipeline_load_sprite_data`: for each collected sprite,
compute its tile row (respecting Y-flip; all row arithmetic wraps on `u8`) and
store the fetched plane byte into `fetch_entry_data[i*2 + offset]`. -/
def loadSpriteDataWalk (ly h offset : Nat) : List Sprite → Nat → PPU → PPU
  | [], _, p => p
  | e :: rest, i, p =>
    let ty := u8 ((u8 (ly + 16) + 256 - e.y) * 2)
    let ty := if e.flags &&& 0x40 ≠ 0 then u8 (2 * h - 2 + 256 - ty) else ty
    let tileIndex := if h = 16 then e.tileIndex &&& 0xFE else e.tileIndex
    let address := 0x8000 + tileIndex * 16 + ty + offset
    let p := { p with pixelFifo := { p.pixelFifo with
      fetchEntryData := p.pixelFifo.fetchEntryData.set (i * 2 + offset) (p.vramRead address) } }
    loadSpriteDataWalk ly h offset rest (i + 1) p

/-- Rust `PPU::pipeline_load_sprite_data`. -/
def PPU.pipelineLoadSpriteData (p : PPU) (offset : Nat) : PPU :=
  loadSpriteDataWalk p.lcd.ly p.lcd.getSpriteHeight offset p.fetchedEntries 0 p

/-- The loop of `PPU::fetch_sprite_pixels`: walk the collected sprites; skip
entries already passed or out of range or transparent; on the first entry that
wins the priority check, return its palette color (the source breaks there). -/
def fetchSpritePixelsWalk (p : PPU) (bgColorIndex : Nat) :
    List Sprite → Nat → Nat → Nat
  | [], _, color => color
  | e :: rest, i, color =>
    let spX := u8 (e.x + 248 + p.lcd.scrollX % 8)
    if u8 (spX + 8) < p.pixelFifo.fifoX then
      fetchSpritePixelsWalk p bgColorIndex rest (i + 1) color
    else
      let offset := u8 (p.pixelFifo.fifoX + 256 - spX)
      if offset > 7 then fetchSpritePixelsWalk p bgColorIndex rest (i + 1) color
      else
        let bit := if e.flags &&& 0x20 ≠ 0 then offset else 7 - offset
        let lo := (p.pixelFifo.fetchEntryData.getD (i * 2) 0 >>> bit) &&& 1
        let hi := (p.pixelFifo.fetchEntryData.getD (i * 2 + 1) 0 >>> bit) &&& 1
        let colorIndex := hi * 2 + lo
        if colorIndex = 0 then fetchSpritePixelsWalk p bgColorIndex rest (i + 1) color
        else if e.flags &&& 0x80 = 0 ∨ bgColorIndex = 0 then
          if e.flags &&& 0x10 ≠ 0 then p.lcd.sp1Colors.getD colorIndex 0
          else p.lcd.sp0Colors.getD colorIndex 0
        else fetchSpritePixelsWalk p bgColorIndex rest (i + 1) color

/-- Rust `PPU::fetch_sprite_pixels`. -/
def PPU.fetchSpritePixels (p : PPU) (bgColorIndex defaultColor : Nat) : Nat :=
  fetchSpritePixelsWalk p bgColorIndex p.fetchedEntries 0 defaultColor

/-- The 8-pixel loop of `PPU::pipeline_fifo_add`; `fuel` counts down from 8,
so the plane bit is `fuel - 1` (MSB first). Pixels are appended only when
`x ≥ 0`. -/
def fifoAddWalk (x : Int) : Nat → PPU → PPU
  | 0, p => p
  | fuel + 1, p =>
    let bit := fuel
    let lo := (p.pixelFifo.bgw1 >>> bit) &&& 1
    let hi := (p.pixelFifo.bgw2 >>> bit) &&& 1
    let colorIndex := hi * 2 + lo
    let color := p.lcd.bgColors.getD colorIndex 0
    let color := if p.lcd.lcdc &&& 0x01 = 0 then p.lcd.bgColors.getD 0 0 else color
    let color := if p.lcd.lcdc &&& 0x02 ≠ 0 then p.fetchSpritePixels colorIndex color else color
    let p :=
      if x ≥ 0 then
        { p with pixelFifo := { p.pixelFifo with
            fifo := p.pixelFifo.fifo ++ [color],
            fifoX := u8 (p.pixelFifo.fifoX + 1) } }
      else p
    fifoAddWalk x fuel p

/-- Rust `PPU::pipeline_fifo_add`: refuse when the FIFO already holds more than 8
pixels; otherwise compose and append eight pixels. -/
def PPU.pipelineFifoAdd (p : PPU) : Bool × PPU :=
  if p.pixelFifo.fifo.length > 8 then (false, p)
  else
    let x : Int := (p.pixelFifo.fetchX : Int) - (8 - (p.lcd.scrollX : Int) % 8)
    (true, fifoAddWalk x 8 p)

/-- Rust `PPU::pipeline_fetch`. -/
def PPU.pipelineFetch (p : PPU) : PPU :=
  match p.pixelFifo.fetchState with
  | .tile =>
    let p := { p with fetchedEntries := [] }
    let p :=
      if p.lcd.lcdc &&& 0x01 ≠ 0 then
        let address := p.lcd.getBgMapArea + p.pixelFifo.mapX / 8 + (p.pixelFifo.mapY / 8) * 32
        let b := p.vramRead address
        let b := if p.lcd.getBgwDataArea = 0x8800 then u8 (b + 128) else b
        ({ p with pixelFifo := { p.pixelFifo with bgw0 := b } }).pipelineLoadWindowTile
      else p
    let p :=
      if p.lcd.lcdc &&& 0x02 != 0 && !p.lineSprites.isEmpty then p.pipelineLoadSpriteTile
      else p
    { p with pixelFifo := { p.pixelFifo with
        fetchState := .dataLow, fetchX := u8 (p.pixelFifo.fetchX + 8) } }
  | .dataLow =>
    let address := p.lcd.getBgwDataArea + p.pixelFifo.bgw0 * 16 + p.pixelFifo.tileY
    let p := { p with pixelFifo := { p.pixelFifo with bgw1 := p.vramRead address } }
    let p := p.pipelineLoadSpriteData 0
    { p with pixelFifo := { p.pixelFifo with fetchState := .dataHigh } }
  | .dataHigh =>
    let address := p.lcd.getBgwDataArea + p.pixelFifo.bgw0 * 16 + p.pixelFifo.tileY + 1
    let p := { p with pixelFifo := { p.pixelFifo with bgw2 := p.vramRead address } }
    let p := p.pipelineLoadSpriteData 1
    { p with pixelFifo := { p.pixelFifo with fetchState := .idle } }
  | .idle => { p with pixelFifo := { p.pixelFifo with fetchState := .push } }
  | .push =>
    let (ok, p) := p.pipelineFifoAdd
    if ok then { p with pixelFifo := { p.pixelFifo with fetchState := .tile } } else p

/-- Rust `PPU::pipeline_push_pixel`: with more than 8 queued pixels, pop one and —
once past the fine scroll offset — store it into the framebuffer. -/
def PPU.pipelinePushPixel (p : PPU) : PPU :=
  if p.pixelFifo.fifo.length > 8 then
    match p.pixelFifo.fifo with
    | [] => p
    | pix :: rest =>
      let p := { p with pixelFifo := { p.pixelFifo with fifo := rest } }
      let p :=
        if p.pixelFifo.lineX ≥ p.lcd.scrollX % 8 then
          let idx := p.pixelFifo.pushedX + p.lcd.ly * 160
          { p with videoBuffer := fun j => if j = idx then pix else p.videoBuffer j,
                   pixelFifo := { p.pixelFifo with pushedX := u8 (p.pixelFifo.pushedX + 1) } }
        else p
      { p with pixelFifo := { p.pixelFifo with lineX := u8 (p.pixelFifo.lineX + 1) } }
  else p

/-- Rust `PPU::pipeline_process`. -/
def PPU.pipelineProcess (p : PPU) : PPU :=
  let p := { p with pixelFifo := { p.pixelFifo with
    mapY := u8 (p.lcd.ly + p.lcd.scrollY),
    mapX := u8 (p.pixelFifo.fetchX + p.lcd.scrollX),
    tileY := (u8 (p.lcd.ly + p.lcd.scrollY) % 8) * 2 } }
  let p := if p.lineTicks &&& 1 = 0 then p.pipelineFetch else p
  p.pipelinePushPixel

/-- Rust `PPU::increment_ly`. -/
def PPU.incrementLy (p : PPU) (il : InterruptLine) : PPU × InterruptLine :=
  let p :=
    if p.lcd.isWindowVisible ∧ p.lcd.ly ≥ p.lcd.winY ∧ p.lcd.ly < u8 (p.lcd.winY + 144) then
      { p with windowLine := u8 (p.windowLine + 1) }
    else p
  let p := { p with lcd := { p.lcd with ly := u8 (p.lcd.ly + 1) } }
  if p.lcd.ly = p.lcd.lyc then
    let p := { p with lcd := { p.lcd with lcds := p.lcd.lcds ||| 0x04 } }
    if p.lcd.lcds &&& 0x40 ≠ 0 then (p, il.requestInterrupt 2) else (p, il)
  else
    ({ p with lcd := { p.lcd with lcds := p.lcd.lcds &&& 0x7B } }, il)

/-- Rust `PPU::tick_xfer`: run the pipeline; once 160 pixels are pushed, clear the
FIFO, enter HBLANK and raise the LCD interrupt when STAT bit 3 selects it. -/
def PPU.tickXfer (p : PPU) (il : InterruptLine) : PPU × InterruptLine :=
  let p := p.pipelineProcess
  if p.pixelFifo.pushedX ≥ 160 then
    let p := { p with pixelFifo := { p.pixelFifo with fifo := [] } }
    let p := { p with lcd := p.lcd.setMode 0 }
    if p.lcd.lcds &&& 0x08 ≠ 0 then (p, il.requestInterrupt 2) else (p, il)
  else (p, il)

/-- Rust `PPU::tick_vblank`. -/
def PPU.tickVblank (p : PPU) (il : InterruptLine) : PPU × InterruptLine :=
  if p.lineTicks ≥ 456 then
    let (p, il) := p.incrementLy il
    let p :=
      if p.lcd.ly ≥ 154 then
        { p with lcd := { p.lcd.setMode 2 with ly := 0 }, windowLine := 0 }
      else p
    ({ p with lineTicks := 0 }, il)
  else (p, il)

/-- Rust `PPU::tick_hblank` (the frame-pacing sleep and FPS log of the source are
real-time only and carry no emulator state). -/
def PPU.tickHblank (p : PPU) (il : InterruptLine) : PPU × InterruptLine :=
  if p.lineTicks ≥ 456 then
    let (p, il) := p.incrementLy il
    if p.lcd.ly ≥ 144 then
      let p := { p with lcd := p.lcd.setMode 1 }
      let il := il.requestInterrupt 1
      let il := if p.lcd.lcds &&& 0x10 ≠ 0 then il.requestInterrupt 2 else il
      ({ p with currentFrame := p.currentFrame + 1, lineTicks := 0 }, il)
    else
      ({ p with lcd := p.lcd.setMode 2, lineTicks := 0 }, il)
  else (p, il)

/-- Rust `PPU::tick`: advance the dot counter and dispatch on the current mode. -/
def PPU.tick (p : PPU) (il : InterruptLine) : PPU × InterruptLine :=
  let p := { p with lineTicks := p.lineTicks + 1 }
  match p.lcd.getMode with
  | 0 => p.tickHblank il
  | 1 => p.tickVblank il
  | 2 => (p.tickOam, il)
  | _ => p.tickXfer il

/-- Iterate `PPU::tick` n times, threading the interrupt line. -/
def ppuTicks : Nat → PPU → InterruptLine → PPU × InterruptLine
  | 0, p, il => (p, il)
  | n + 1, p, il =>
    let (p, il) := p.tick il
    ppuTicks n p il

example : (ppuTicks 4 PPU.new InterruptLine.new).1.lineTicks = 4 := by decide

/-! ## dma.rs -/

/-- Rust `DMA`: active flag, byte counter, start delay and the page value written
to `0xFF46`. -/
structure DMA where
  active : Bool
  byte : Nat
  startDelay : Nat
  value : Nat
deriving Repr, DecidableEq

def DMA.new : DMA := ⟨false, 0, 0, 0⟩

/-- Rust `DMA::start`. -/
def DMA.start (value : Nat) : DMA := ⟨true, 0, 2, value⟩

/-- Rust `DMA::tick_cycle`: while active and past the start delay, read the bus at
`value * 0x100` (the source does not add the byte counter), write the byte
into OAM at the counter, increment the counter and deactivate at 160. The bus
read can panic (`none`) when it hits a ROM region without a cartridge. -/
def DMA.tickCycle (d : DMA) (bus : MemoryBus) (ppu : PPU) : Option (DMA × PPU) :=
  if ¬ d.active then some (d, ppu)
  else if d.startDelay > 0 then some ({ d with startDelay := d.startDelay - 1 }, ppu)
  else
    match bus.read (d.value * 0x100) with
    | none => none
    | some oamValue =>
      let ppu := ppu.oamWrite d.byte oamValue
      let byte := u8 (d.byte + 1)
      some ({ d with byte := byte, active := byte < 0xA0 }, ppu)

/-- Iterate `DMA::tick_cycle` n times against a fixed bus. -/
def dmaRun : Nat → DMA → MemoryBus → PPU → Option (DMA × PPU)
  | 0, d, _, p => some (d, p)
  | n + 1, d, bus, p =>
    match d.tickCycle bus p with
    | none => none
    | some (d, p) => dmaRun n d bus p

/-! ## emu.rs -/

/-- Rust `Emulator`: the host state (the SDL fields and debug fields of the source
are front-end only and are omitted). -/
structure Emulator where
  ticks : Nat
  bus : MemoryBus
  interrupts : InterruptLine
  dma : DMA
  ppu : PPU
  timer : Timer

/-- Rust `Emulator::new`. -/
def Emulator.new : Emulator :=
  { ticks := 0, bus := MemoryBus.new, interrupts := InterruptLine.new,
    dma := DMA.new, ppu := PPU.new, timer := Timer.new }

/-- One of the four T-cycle iterations inside `Emulator::tick_cycle`. -/
def Emulator.tCycle (s : Emulator) : Emulator :=
  { s with ticks := s.ticks + 1,
           timer := (s.timer.tick s.interrupts).1,
           interrupts := (s.timer.tick s.interrupts).2 }

/-- Rust `Emulator::tick_cycle` (`CpuContext` impl): four timer T-cycles, then one
DMA step. The PPU's `tick` is not called here. -/
def Emulator.tickCycle (s : Emulator) : Option Emulator :=
  let s := s.tCycle.tCycle.tCycle.tCycle
  match s.dma.tickCycle s.bus s.ppu with
  | none => none
  | some (d, p) => some { s with dma := d, ppu := p }

/-- Rust `Emulator::peek`: read without ticking. VRAM and OAM go to the PPU (OAM
reads 0xFF during DMA); the I/O page dispatches by register; everything else
reads the bus. -/
def Emulator.peek (s : Emulator) (address : Nat) : Option Nat :=
  if 0x8000 ≤ address ∧ address ≤ 0x9FFF then some (s.ppu.vramRead address)
  else if 0xFE00 ≤ address ∧ address ≤ 0xFE9F then
    if s.dma.active then some 0xFF else some (s.ppu.oamRead address)
  else if (0xFF00 ≤ address ∧ address ≤ 0xFF7F) ∨ address = 0xFFFF then
    match HardwareRegister.fromU16 address with
    | some .SB | some .SC => s.bus.read address
    | some .DIV | some .TIMA | some .TMA | some .TAC => s.timer.read address
    | some .IF => some s.interrupts.interruptFlag
    | some .LY => s.bus.read address
    | some .IE => some s.interrupts.interruptEnable
    | _ => s.bus.read address
  else s.bus.read address

/-- The body of `Emulator::write_cycle` after its tick: write the flat bus
image, then dispatch device side-effects. VRAM/OAM writes go to the PPU (OAM
writes are dropped during DMA); on the I/O page only SB/SC, the timer
registers, IF, DMA and IE are implemented — every other register (including
the whole LCD block) only logs "Unimplemented hardware register write". -/
def Emulator.busDeviceWrite (s : Emulator) (address value : Nat) : Emulator :=
  let s := { s with bus := s.bus.write address value }
  if 0x8000 ≤ address ∧ address ≤ 0x9FFF then
    { s with ppu := s.ppu.vramWrite address value }
  else if 0xFE00 ≤ address ∧ address ≤ 0xFE9F then
    if s.dma.active then s else { s with ppu := s.ppu.oamWrite address value }
  else if (0xFF00 ≤ address ∧ address ≤ 0xFF7F) ∨ address = 0xFFFF then
    match HardwareRegister.fromU16 address with
    | some .SB | some .SC => { s with bus := s.bus.write address value }
    | some .DIV | some .TIMA | some .TMA | some .TAC =>
      { s with timer := s.timer.write address value }
    | some .IF =>
      { s with interrupts := { s.interrupts with interruptFlag := value &&& 0x1F } }
    | some .DMA => { s with dma := DMA.start value }
    | some .IE =>
      { s with interrupts := { s.interrupts with interruptEnable := value &&& 0x1F } }
    | _ => s
  else s

/-- Rust `Emulator::write_cycle`: tick one M-cycle, then perform the bus/device
write. -/
def Emulator.writeCycle (s : Emulator) (address value : Nat) : Option Emulator :=
  match s.tickCycle with
  | none => none
  | some s => some (s.busDeviceWrite address value)

/-- Rust `Emulator::read_cycle`: tick one M-cycle, then peek. -/
def Emulator.readCycle (s : Emulator) (address : Nat) : Option (Nat × Emulator) :=
  match s.tickCycle with
  | none => none
  | some s =>
    match s.peek address with
    | none => none
    | some v => some (v, s)

/-- Rust `Emulator::get_interrupt`: compare the interrupt line's IE/IF with the
bus's bytes at `0xFFFF`/`0xFF0F` and panic (`none`) when they disagree; else
return `IE ∧ IF` if nonzero. The outer `none` is the panic
"Interrupt registers are not synchronized.". -/
def Emulator.getInterrupt (s : Emulator) : Option (Option Nat) :=
  let ier := s.interrupts.interruptEnable
  let ifr := s.interrupts.interruptFlag
  match s.bus.read 0xFFFF, s.bus.read 0xFF0F with
  | some busIer, some busIfr =>
    if busIer ≠ ier ∨ busIfr ≠ ifr then none
    else if ier &&& ifr ≠ 0 then some (some (ier &&& ifr)) else some none
  | _, _ => none

/-- Rust `Emulator::ack_interrupt`: clear the highest-priority bit of the given
flags in IF, on both the interrupt line and the bus image. -/
def Emulator.ackInterrupt (s : Emulator) (f : Nat) : Emulator :=
  let newIfr := s.interrupts.interruptFlag &&& (0xFF ^^^ highestPriority f) &&& 0x1F
  { s with interrupts := { s.interrupts with interruptFlag := newIfr },
           bus := s.bus.write 0xFF0F newIfr }

/-- Rust `Emulator::run` installs a cartridge into the bus before stepping. -/
def Emulator.setRom (s : Emulator) (c : Cartridge) : Emulator :=
  { s with bus := { s.bus with rom := some c } }

/-- States of the emulator reachable from power-on (`Emulator::new`, possibly
with a cartridge installed) through the `CpuContext` operations the
interpreter uses. -/
inductive Reachable : Emulator → Prop where
  | init : Reachable Emulator.new
  | load {s} (c : Cartridge) : Reachable s → Reachable (s.setRom c)
  | tick {s s'} : Reachable s → s.tickCycle = some s' → Reachable s'
  | read {s s' a v} : Reachable s → s.readCycle a = some (v, s') → Reachable s'
  | write {s s' a v} : Reachable s → s.writeCycle a v = some s' → Reachable s'
  | ack {s f} : Reachable s → Reachable (s.ackInterrupt f)

example : (Emulator.new.tickCycle.map fun s => s.timer.div) = some 0xAC04 := by decide
example : (Emulator.new.readCycle 0xFF04).map Prod.fst = some 0xAC := by decide

/-! ## cpu/register_file.rs and the stack operations of cpu.rs -/

/-- The `Register` enumeration (8-bit cells, 16-bit pairs, SP and PC). -/
inductive Register where
  | a | f | b | c | d | e | h | l | af | bc | de | hl | sp | pc
deriving Repr, DecidableEq

/-- Rust `RegisterFile`: eight 8-bit cells, SP, PC, and the separate `flags`
bitflags field (mask `0xF0`) used by the flag accessors. -/
structure RegisterFile where
  a : Nat
  f : Nat
  b : Nat
  c : Nat
  d : Nat
  e : Nat
  h : Nat
  l : Nat
  pc : Nat
  sp : Nat
  flags : Nat
deriving Repr, DecidableEq

/-- Rust `RegisterFile::new`: post-boot register values; `flags` starts empty. -/
def RegisterFile.new : RegisterFile :=
  { a := 0x01, f := 0xB0, b := 0, c := 0x13, d := 0, e := 0xD8, h := 0x01, l := 0x4D,
    pc := 0x100, sp := 0xFFFE, flags := 0 }

/-- Rust `RegisterFile::read8`; panics (`none`) on a 16-bit register. -/
def RegisterFile.read8 (r : RegisterFile) (reg : Register) : Option Nat :=
  match reg with
  | .a => some r.a
  | .f => some r.f
  | .b => some r.b
  | .c => some r.c
  | .d => some r.d
  | .e => some r.e
  | .h => some r.h
  | .l => some r.l
  | _ => none

/-- Rust `RegisterFile::read16`; panics (`none`) on an 8-bit register. -/
def RegisterFile.read16 (r : RegisterFile) (reg : Register) : Option Nat :=
  match reg with
  | .af => some (r.a <<< 8 ||| r.f)
  | .bc => some (r.b <<< 8 ||| r.c)
  | .de => some (r.d <<< 8 ||| r.e)
  | .hl => some (r.h <<< 8 ||| r.l)
  | .pc => some r.pc
  | .sp => some r.sp
  | _ => none

/-- Rust `RegisterFile::write8`: stores the value as given — the F cell is NOT
masked here. Panics (`none`) on a 16-bit register. -/
def RegisterFile.write8 (r : RegisterFile) (reg : Register) (value : Nat) :
    Option RegisterFile :=
  match reg with
  | .a => some { r with a := value }
  | .f => some { r with f := value }
  | .b => some { r with b := value }
  | .c => some { r with c := value }
  | .d => some { r with d := value }
  | .e => some { r with e := value }
  | .h => some { r with h := value }
  | .l => some { r with l := value }
  | _ => none

/-- Rust `RegisterFile::write16`: split into high/low bytes; the AF arm masks the
low nibble of F but the `Flags::from_bits_truncate(lo)` it computes is
discarded by the source, so the `flags` field is left unchanged. Panics
(`none`) on an 8-bit register. -/
def RegisterFile.write16 (r : RegisterFile) (reg : Register) (value : Nat) :
    Option RegisterFile :=
  let lo := value &&& 0x00FF
  let hi := (value &&& 0xFF00) >>> 8
  match reg with
  | .af => some { r with a := hi, f := lo &&& 0xF0 }
  | .bc => some { r with b := hi, c := lo }
  | .de => some { r with d := hi, e := lo }
  | .hl => some { r with h := hi, l := lo }
  | .pc => some { r with pc := value }
  | .sp => some { r with sp := value }
  | _ => none

/-- Rust `RegisterFile::zf`. -/
def RegisterFile.zf (r : RegisterFile) : Bool := r.flags &&& 0x80 != 0

/-- Rust `RegisterFile::nf`. -/
def RegisterFile.nf (r : RegisterFile) : Bool := r.flags &&& 0x40 != 0

/-- Rust `RegisterFile::hf`. -/
def RegisterFile.hf (r : RegisterFile) : Bool := r.flags &&& 0x20 != 0

/-- Rust `RegisterFile::cf`. -/
def RegisterFile.cf (r : RegisterFile) : Bool := r.flags &&& 0x10 != 0

/-- Rust `CPU::push_value`: one internal tick, then SP -= 1 / write MSB,
SP -= 1 / write LSB. -/
def pushValue (r : RegisterFile) (s : Emulator) (value : Nat) :
    Option (RegisterFile × Emulator) :=
  let msb := (value >>> 8) &&& 0xFF
  let lsb := value &&& 0xFF
  match s.tickCycle with
  | none => none
  | some s =>
    let r := { r with sp := u16 (r.sp + 65535) }
    match s.writeCycle r.sp msb with
    | none => none
    | some s =>
      let r := { r with sp := u16 (r.sp + 65535) }
      match s.writeCycle r.sp lsb with
      | none => none
      | some s => some (r, s)

/-- Rust `CPU::pop_value`: read LSB at SP, SP += 1, read MSB at SP, SP += 1. -/
def popValue (r : RegisterFile) (s : Emulator) :
    Option (Nat × RegisterFile × Emulator) :=
  match s.readCycle r.sp with
  | none => none
  | some (lo, s) =>
    let r := { r with sp := u16 (r.sp + 1) }
    match s.readCycle r.sp with
    | none => none
    | some (hi, s) =>
      let r := { r with sp := u16 (r.sp + 1) }
      some (hi <<< 8 ||| lo, r, s)

/-- Rust `CPU::push` for a 16-bit register operand. -/
def cpuPush (reg : Register) (r : RegisterFile) (s : Emulator) :
    Option (RegisterFile × Emulator) :=
  match r.read16 reg with
  | none => none
  | some value => pushValue r s value

/-- Rust `CPU::pop` for a 16-bit register operand. -/
def cpuPop (reg : Register) (r : RegisterFile) (s : Emulator) :
    Option (RegisterFile × Emulator) :=
  match popValue r s with
  | none => none
  | some (value, r, s) =>
    match r.write16 reg value with
    | none => none
    | some r => some (r, s)

/-- The boundary scenario of the spec: `PUSH BC` then `POP AF` with
`BC = 0x1234`, starting from the power-on register file and emulator. -/
def pushPopScenario : Option RegisterFile :=
  let r0 := { RegisterFile.new with b := 0x12, c := 0x34 }
  match cpuPush .bc r0 Emulator.new with
  | none => none
  | some (r1, s1) =>
    match cpuPop .af r1 s1 with
    | none => none
    | some (r2, _) => some r2

example : pushPopScenario.map (fun r => (r.a, r.f, r.sp)) = some (0x12, 0x30, 0xFFFE) := by decide

/-! ## Helper lemmas -/

/-- An OAM write changes only the OAM array of the PPU. -/
theorem PPU.oamWrite_lcd (p : PPU) (a v : Nat) :
    (p.oamWrite a v).lcd = p.lcd ∧ (p.oamWrite a v).lineTicks = p.lineTicks :=
  ⟨rfl, rfl⟩

/-- A successful DMA step leaves the PPU's LCD block and dot counter alone. -/
theorem DMA.tickCycle_ppu {d : DMA} {bus : MemoryBus} {p : PPU} {d' : DMA} {p' : PPU}
    (h : DMA.tickCycle d bus p = some (d', p')) :
    p'.lcd = p.lcd ∧ p'.lineTicks = p.lineTicks := by
  unfold DMA.tickCycle at h
  split at h
  · rw [Option.some.injEq, Prod.mk.injEq] at h
    rw [← h.2]
    exact ⟨rfl, rfl⟩
  · split at h
    · rw [Option.some.injEq, Prod.mk.injEq] at h
      rw [← h.2]
      exact ⟨rfl, rfl⟩
    · cases hb : bus.read (d.value * 0x100) with
      | none => rw [hb] at h; cases h
      | some w =>
        rw [hb] at h
        rw [Option.some.injEq, Prod.mk.injEq] at h
        rw [← h.2]
        exact (p.oamWrite_lcd d.byte w)

/-- A successful host tick leaves the PPU's LCD block and dot counter, the bus
and the cartridge alone; it only runs the timer (four times) and the DMA. -/
theorem Emulator.tickCycle_frame {s s' : Emulator} (h : s.tickCycle = some s') :
    s'.ppu.lcd = s.ppu.lcd ∧ s'.ppu.lineTicks = s.ppu.lineTicks ∧ s'.bus = s.bus := by
  simp only [Emulator.tickCycle, Emulator.tCycle] at h
  cases hd : DMA.tickCycle s.dma s.bus s.ppu with
  | none => rw [hd] at h; cases h
  | some dp =>
    obtain ⟨d', p'⟩ := dp
    rw [hd] at h
    rw [Option.some.injEq] at h
    have hp := DMA.tickCycle_ppu hd
    rw [← h]
    exact ⟨hp.1, hp.2, rfl⟩

/-! ## Claim C5: timer overflow behavior -/

/-- The timer of the spec's boundary scenario 7:
TAC = 0x05 (enable, rate 01), DIV = 0x0000, TIMA = 0xFE, TMA = 0. -/
def timerC5 : Timer := { div := 0, tima := 0xFE, tma := 0, tac := 0x05 }

set_option maxRecDepth 40000 in
/-- Claim C5 (code bug): with TAC=0x05, DIV=0, TIMA=0xFE, TMA=0, the code
reloads TIMA from TMA and raises IF bit 2 already on the 16th T-cycle, when
TIMA merely reaches 0xFF (the reload condition is `tima == 0xFF` after the
increment, not a wrap to 0x00), so after 2×16 T-cycles TIMA is 0x01 — the
claim and the spec's scenario demand TIMA = 0x00 with the reload on the
0xFF→0x00 wrap. -/
theorem claim_C5_bug :
    (timerTicks 32 timerC5 InterruptLine.new).1.tima = 0x01
  ∧ (timerTicks 16 timerC5 InterruptLine.new).1.tima = 0x00
  ∧ (timerTicks 16 timerC5 InterruptLine.new).2.interruptFlag = 4
  ∧ (timerTicks 15 timerC5 InterruptLine.new).1.tima = 0xFE := by
  exact ⟨by decide, by decide, by decide, by decide⟩

/-! ## Claim C4: OAM-DMA source address -/

/-- A bus whose work RAM holds 0xAA at 0xC000 and 0xBB at 0xC001. -/
def busC4 : MemoryBus :=
  ⟨fun a => if a = 0xC000 then 0xAA else if a = 0xC001 then 0xBB else 0, none⟩

set_option maxRecDepth 40000 in
/-- Claim C4 (code bug): after `DMA::start(0xC0)` and four M-cycles (two of
start delay, then two copies), OAM[1] holds the bus byte at 0xC000 (0xAA),
because `DMA::tick_cycle` reads `value * 0x100` without adding the byte
counter — the claim demands the byte at `(page<<8)|1`, which is 0xBB. -/
theorem claim_C4_bug :
    (dmaRun 4 (DMA.start 0xC0) busC4 PPU.new).map
        (fun dp => (dp.2.oamRead 0, dp.2.oamRead 1, dp.1.byte, dp.1.active))
      = some (0xAA, 0xAA, 2, true)
  ∧ busC4.read 0xC001 = some 0xBB := by
  exact ⟨by decide, by decide⟩

/-! ## Claim C6: POP AF and the flag accessors -/

set_option maxRecDepth 40000 in
/-- Claim C6 (code bug): in the PUSH BC / POP AF scenario with BC = 0x1234,
the code does restore A = 0x12, F = 0x30 and SP = 0xFFFE, but the four flag
accessors still read the old flags (all false here): `write16(AF, v)` computes
`Flags::from_bits_truncate` of the stack byte and discards it, so the flags
are NOT loaded from the stack byte (the claim demands H and C true, from bits
5 and 4 of 0x34). -/
theorem claim_C6_bug :
    pushPopScenario.map (fun r => (r.a, r.f, r.sp, r.zf, r.nf, r.hf, r.cf))
      = some (0x12, 0x30, 0xFFFE, false, false, false, false)
  ∧ 0x34 &&& 0x20 ≠ 0 ∧ 0x34 &&& 0x10 ≠ 0 := by
  exact ⟨by rfl, by decide, by decide⟩

/-! ## Claim C9: writes to register F -/

/-- Claim C9 (code bug): `write8(F, v)` stores `v` unmasked — after
`write8(F, 0x0F)` the F cell is 0x0F, whose low nibble is not zero; the claim
demands `v & 0xF0`. (`write16(AF, v)` does mask, as the second conjunct
shows.) -/
theorem claim_C9_bug :
    (RegisterFile.new.write8 .f 0x0F).map RegisterFile.f = some 0x0F
  ∧ (RegisterFile.new.write16 .af 0x12FF).map (fun r => (r.a, r.f)) = some (0x12, 0xF0)
  ∧ 0x0F &&& 0x0F ≠ 0 := by
  exact ⟨by decide, by decide, by decide⟩

/-! ## Claim C7: the per-line sprite list -/

def spriteC7a : Sprite := ⟨16, 8, 0, 0⟩
def spriteC7b : Sprite := ⟨16, 16, 0, 0⟩

/-- OAM with two sprites on line 0 (X = 8 then X = 16). -/
def oamC7 : List Sprite := spriteC7a :: spriteC7b :: List.replicate 38 Sprite.new

/-- OAM with four sprites on line 0, X = 6, 5, 2, 4 in OAM order. -/
def oamC7dup : List Sprite :=
  ⟨16, 6, 0, 0⟩ :: ⟨16, 5, 0, 0⟩ :: ⟨16, 2, 0, 0⟩ :: ⟨16, 4, 0, 0⟩ ::
    List.replicate 36 Sprite.new

/-- Claim C7 (code bug): at LY = 0 with 8-pixel sprites, the OAM walk of
`load_line_sprites` DROPS the second sprite of `oamC7` (X = 16 is not smaller
than the front X = 8, and the insertion loop only inserts before a strictly
greater X, so the sprite is never appended), and on `oamC7dup` it inserts the
X = 4 sprite TWICE (the insertion loop has no break). The claim demands each
selected sprite exactly once, sorted by X. -/
theorem claim_C7_bug :
    loadLineSpritesWalk 0 8 oamC7 [] = [spriteC7a]
  ∧ (loadLineSpritesWalk 0 8 oamC7dup []).map Sprite.x = [2, 4, 4, 5, 6] := by
  exact ⟨by decide, by decide⟩

/-! ## Claim C3: get_interrupt on reachable states -/

/-- The state after `write_cycle(TAC, 0x05)` from power-on. -/
def emulatorC3a : Emulator :=
  (Emulator.new.tickCycle.getD Emulator.new).busDeviceWrite 0xFF07 0x05

/-- Then `write_cycle(TIMA, 0xFE)`. -/
def emulatorC3b : Emulator :=
  (emulatorC3a.tickCycle.getD emulatorC3a).busDeviceWrite 0xFF05 0xFE

/-- Then one `tick_cycle`. -/
def emulatorC3c : Emulator := emulatorC3b.tickCycle.getD emulatorC3b

/-- Then a second `tick_cycle`; during it DIV crosses `0xAC0F → 0xAC10`
(a falling edge of bit 3), TIMA goes 0xFE → 0xFF and the timer reloads and
raises TIMER on the interrupt line — but not in the bus byte at 0xFF0F. -/
def emulatorC3d : Emulator := emulatorC3c.tickCycle.getD emulatorC3c

/-- Claim C3 (code bug): the desynchronized state `emulatorC3d` is reachable
from power-on through two `write_cycle`s and two `tick_cycle`s, its interrupt
line holds IF = 4 while the bus byte 0xFF0F still holds 0, and `get_interrupt`
panics there ("Interrupt registers are not synchronized.", modelled as
`none`) — the claim demands that `get_interrupt` always returns. -/
theorem claim_C3_bug :
    Reachable emulatorC3d
  ∧ emulatorC3d.getInterrupt = none
  ∧ emulatorC3d.interrupts.interruptFlag = 4
  ∧ emulatorC3d.bus.bytes 0xFF0F = 0 := by
  refine ⟨?_, by decide, by decide, by decide⟩
  exact Reachable.tick
    (Reachable.tick
      (@Reachable.write emulatorC3a emulatorC3b 0xFF05 0xFE
        (@Reachable.write Emulator.new emulatorC3a 0xFF07 0x05 Reachable.init rfl) rfl)
      rfl)
    rfl

/-! ## Claim C1: what one host memory cycle advances -/

/-- Iterate `PPU::tick` n times starting from a given interrupt line (used to
state what "advancing the PPU by four dots" would be). -/
def ppuDots (n : Nat) (p : PPU) (il : InterruptLine) : PPU :=
  (ppuTicks n p il).1

/-- Claim C1 as stated: a `tick_cycle` advances the timer by four T-cycles,
the PPU by four dots, and the DMA engine by one step. -/
def ClaimC1 (s : Emulator) : Prop :=
  ∀ s', s.tickCycle = some s' →
    (s'.timer, s'.interrupts) = timerTicks 4 s.timer s.interrupts
    ∧ s'.ppu = ppuDots 4 s.ppu s.interrupts
    ∧ (DMA.tickCycle s.dma s.bus s.ppu).map Prod.fst = some s'.dma

set_option maxRecDepth 40000 in
/-- Claim C1 fails at the power-on state: `Emulator::tick_cycle` never calls
`PPU::tick`, so after one memory cycle the PPU's dot counter is still 0,
whereas four PPU dots would leave it at 4. -/
theorem claim_C1_counterexample : ¬ ClaimC1 Emulator.new := by
  intro hc
  exact absurd (congrArg PPU.lineTicks (hc _ rfl).2.1) (by decide)

/-- Claim C1 amended: `tick_cycle` advances the timer by four T-cycles
(threading the interrupt line) and the DMA engine by one step against the
current bus and PPU, and — apart from the DMA's OAM write — it does not touch
the PPU: in particular the PPU's dot counter and LCD block never change. -/
theorem claim_C1_amended (s : Emulator) :
    s.tickCycle = (DMA.tickCycle s.dma s.bus s.ppu).map (fun dp =>
      { s with ticks := s.ticks + 4,
               timer := (timerTicks 4 s.timer s.interrupts).1,
               interrupts := (timerTicks 4 s.timer s.interrupts).2,
               dma := dp.1, ppu := dp.2 })
  ∧ ((DMA.tickCycle s.dma s.bus s.ppu).all fun dp =>
      decide (dp.2.lineTicks = s.ppu.lineTicks) && decide (dp.2.lcd = s.ppu.lcd)) = true := by
  constructor
  · simp only [Emulator.tickCycle, Emulator.tCycle]
    cases hd : DMA.tickCycle s.dma s.bus s.ppu with
    | none => rfl
    | some dp => rfl
  · cases hd : DMA.tickCycle s.dma s.bus s.ppu with
    | none => rfl
    | some dp =>
      obtain ⟨d', p'⟩ := dp
      have hp := DMA.tickCycle_ppu hd
      simp [Option.all, hp.1, hp.2]

/-! ## Claim C2: which side of the access the tick falls on -/

/-- Modelled from the spec's words (C2): "read_cycle first peeks the value,
then ticks". -/
def Emulator.readCyclePeekFirst (s : Emulator) (address : Nat) : Option (Nat × Emulator) :=
  match s.peek address with
  | none => none
  | some v =>
    match s.tickCycle with
    | none => none
    | some s' => some (v, s')

/-- Modelled from the spec's words (C2): "write_cycle writes, then ticks". -/
def Emulator.writeCycleWriteFirst (s : Emulator) (address value : Nat) : Option Emulator :=
  (s.busDeviceWrite address value).tickCycle

/-- Claim C2 as stated: reads peek before the tick's device side-effects and
writes land before the tick, for every address and host state. -/
def ClaimC2 : Prop :=
  (∀ (s : Emulator) (a : Nat), s.readCycle a = s.readCyclePeekFirst a)
  ∧ (∀ (s : Emulator) (a v : Nat), s.writeCycle a v = s.writeCycleWriteFirst a v)

/-- A power-on emulator whose DIV internal counter sits at 0x00FC, one
M-cycle before its high byte increments. -/
def emulatorC2 : Emulator := { Emulator.new with timer := { Timer.new with div := 0xFC } }

set_option maxRecDepth 40000 in
/-- Claim C2 fails: reading DIV at `emulatorC2` returns 0x01 (the code ticks
first, and the tick carries DIV from 0x00FC to 0x0100), while peek-then-tick
would return 0x00. -/
theorem claim_C2_counterexample : ¬ ClaimC2 := by
  intro hc
  exact absurd (congrArg (Option.map Prod.fst) (hc.1 emulatorC2 0xFF04)) (by decide)

/-- The tick-then-peek reading discipline the code actually implements. -/
def Emulator.readCycleTickFirst (s : Emulator) (address : Nat) : Option (Nat × Emulator) :=
  match s.tickCycle with
  | none => none
  | some s' =>
    match s'.peek address with
    | none => none
    | some v => some (v, s')

/-- The tick-then-write discipline the code actually implements. -/
def Emulator.writeCycleTickFirst (s : Emulator) (address value : Nat) : Option Emulator :=
  (s.tickCycle).map fun s' => s'.busDeviceWrite address value

/-- Claim C2 amended: the tick falls BEFORE the access on both sides —
`read_cycle` ticks one M-cycle and then peeks (returning the value after the
tick's device side-effects), and `write_cycle` ticks and then performs the
bus/device write. -/
theorem claim_C2_amended :
    (∀ (s : Emulator) (a : Nat), s.readCycle a = s.readCycleTickFirst a)
  ∧ (∀ (s : Emulator) (a v : Nat), s.writeCycle a v = s.writeCycleTickFirst a v) := by
  constructor
  · intro s a
    rfl
  · intro s a v
    cases h : s.tickCycle with
    | none => simp [Emulator.writeCycle, Emulator.writeCycleTickFirst, h]
    | some s' => simp [Emulator.writeCycle, Emulator.writeCycleTickFirst, h]

/-! ## Claim C8: LCD register writes through write_cycle -/

/-- The LCD state that `LCD::write` would produce for BGP := 0x42: palette
slots DEFAULT_COLORS[2], [0], [0], [1]. -/
def lcdAfterBgp42 : LCD :=
  { LCD.new with
      bgPalette := 0x42,
      bgColors := [DEFAULT_COLORS.getD 2 0, DEFAULT_COLORS.getD 0 0,
                   DEFAULT_COLORS.getD 0 0, DEFAULT_COLORS.getD 1 0] }

/-- Claim C8 as stated: a `write_cycle` in 0xFF40–0xFF4B (except LY) routes to
`LCD::write` of the corresponding register, and in particular after writing
0x42 to BGP the palette slots are DEFAULT_COLORS[2], [0], [1], [1] as the
spec's scenario 4 lists them. -/
def ClaimC8 : Prop :=
  (∀ (s s' : Emulator) (a v : Nat), 0xFF40 ≤ a → a ≤ 0xFF4B → a ≠ 0xFF44 →
      s.writeCycle a v = some s' →
      ∃ r l', HardwareRegister.fromU16 a = some r ∧ s.ppu.lcd.write r v = some l'
        ∧ s'.ppu.lcd = l')
  ∧ (∀ s', Emulator.new.writeCycle 0xFF47 0x42 = some s' →
      s'.ppu.lcd.bgColors =
        [DEFAULT_COLORS.getD 2 0, DEFAULT_COLORS.getD 0 0,
         DEFAULT_COLORS.getD 1 0, DEFAULT_COLORS.getD 1 0])

set_option maxRecDepth 40000 in
/-- Claim C8 fails: `write_cycle` to 0xFF47 lands in the emulator's
"Unimplemented hardware register write" arm, so the LCD palette is untouched
(still `DEFAULT_COLORS`), which differs from the listed slots already at
slot 0. -/
theorem claim_C8_counterexample : ¬ ClaimC8 := by
  intro hc
  exact absurd (hc.2 _ rfl) (by decide)

/-- Claim C8 amended: a `write_cycle` to 0xFF40–0xFF4B other than DMA
(0xFF46) does NOT reach the LCD: it stores the raw byte into the flat bus
image and leaves the whole LCD block unchanged (the emulator's register
dispatch has no arm for the LCD registers). `LCD::write` itself, had it been
called with BGP and 0x42, would produce `lcdAfterBgp42`, whose slot 2 is
DEFAULT_COLORS[0], not [1]. -/
theorem claim_C8_amended (s : Emulator) (a v : Nat)
    (h1 : 0xFF40 ≤ a) (h2 : a ≤ 0xFF4B) (h3 : a ≠ 0xFF46) :
    (s.busDeviceWrite a v).ppu.lcd = s.ppu.lcd
  ∧ (s.busDeviceWrite a v).bus.bytes a = v
  ∧ ((s.writeCycle a v).all fun s' => decide (s'.ppu.lcd = s.ppu.lcd)) = true
  ∧ LCD.new.write HardwareRegister.BGP 0x42 = some lcdAfterBgp42 := by
  have hbd : ∀ (t : Emulator),
      (t.busDeviceWrite a v).ppu.lcd = t.ppu.lcd ∧ (t.busDeviceWrite a v).bus.bytes a = v := by
    intro t
    interval_cases a
    all_goals first
      | exact absurd rfl h3
      | exact ⟨rfl, rfl⟩
  refine ⟨(hbd s).1, (hbd s).2, ?_, by decide⟩
  cases h : s.tickCycle with
  | none =>
    have hw : s.writeCycle a v = none := by simp [Emulator.writeCycle, h]
    rw [hw]
    rfl
  | some s1 =>
    have hw : s.writeCycle a v = some (s1.busDeviceWrite a v) := by
      simp [Emulator.writeCycle, h]
    rw [hw]
    have hl := (Emulator.tickCycle_frame h).1
    have hb := (hbd s1).1
    simp [Option.all, hb, hl]

/-- Witness for C8's amended theorem at the scenario input
(address 0xFF47, value 0x42, power-on state). -/
theorem claim_C8_amended_witness :
    (Emulator.new.busDeviceWrite 0xFF47 0x42).ppu.lcd = Emulator.new.ppu.lcd
  ∧ (Emulator.new.busDeviceWrite 0xFF47 0x42).bus.bytes 0xFF47 = 0x42
  ∧ ((Emulator.new.writeCycle 0xFF47 0x42).all fun s' =>
      decide (s'.ppu.lcd = Emulator.new.ppu.lcd)) = true
  ∧ LCD.new.write HardwareRegister.BGP 0x42 = some lcdAfterBgp42 :=
  claim_C8_amended Emulator.new 0xFF47 0x42 (by decide) (by decide) (by decide)

/-! ## Claim C10: ROM-region bus reads -/

/-- Claim C10 as stated: ROM-region reads index the raw cartridge bytes at
the unadjusted address, and every read in 0xA000–0xBFFF fails for any
cartridge image of 0xC000 bytes or fewer. -/
def ClaimC10 : Prop :=
  (∀ (b : MemoryBus) (a : Nat),
      a ≤ 0x7FFF ∨ (0xA000 ≤ a ∧ a ≤ 0xBFFF) →
      b.read a = b.rom.bind fun c => c.data[a]?)
  ∧ (∀ c : Cartridge, c.data.length ≤ 0xC000 →
      ∀ a, 0xA000 ≤ a → a ≤ 0xBFFF → (MemoryBus.mk (fun _ => 0) (some c)).read a = none)

/-- Claim C10 fails at the boundary: an image of 0xA001 bytes is within the
claimed "0xC000 bytes or fewer", yet the read at 0xA000 is in bounds and
succeeds. -/
theorem claim_C10_counterexample : ¬ ClaimC10 := by
  intro hc
  have hval : ∀ (l : List Nat),
      (MemoryBus.mk (fun _ => 0) (some ⟨l⟩)).read 0xA000 = l[0xA000]? := by
    intro l
    unfold MemoryBus.read
    norm_num
  have hlen : (Cartridge.mk (List.replicate 0xA001 0)).data.length ≤ 0xC000 := by
    rw [show (Cartridge.mk (List.replicate 0xA001 0)).data = List.replicate 0xA001 0 from rfl,
        List.length_replicate]
    norm_num
  have h := hc.2 ⟨List.replicate 0xA001 0⟩ hlen 0xA000 (by norm_num) (by norm_num)
  rw [hval, List.getElem?_replicate] at h
  exact Option.noConfusion h

/-- Claim C10 amended: with a cartridge loaded, a read in 0x0000–0x7FFF or
0xA000–0xBFFF returns the raw cartridge byte at the unadjusted address; it
panics exactly when the image length is at most the address; hence every read
in 0xA000–0xBFFF fails for any image of 0xA000 bytes or fewer (e.g. a plain
32 KiB no-mapper ROM). -/
theorem claim_C10_amended (b : MemoryBus) (c : Cartridge) (a : Nat)
    (hrom : b.rom = some c)
    (ha : a ≤ 0x7FFF ∨ (0xA000 ≤ a ∧ a ≤ 0xBFFF)) :
    b.read a = c.data[a]?
  ∧ (b.read a = none ↔ c.data.length ≤ a)
  ∧ (c.data.length ≤ 0xA000 → 0xA000 ≤ a → b.read a = none) := by
  have hread : b.read a = c.data[a]? := by
    unfold MemoryBus.read
    rcases ha with h | ⟨hlo, hhi⟩
    · rw [if_pos h, hrom]
      rfl
    · rw [if_neg (by omega), if_neg (by omega), if_pos hhi, hrom]
      rfl
  refine ⟨hread, ?_, ?_⟩
  · rw [hread]
    exact List.getElem?_eq_none_iff
  · intro hlen hge
    rw [hread]
    exact List.getElem?_eq_none (by omega)

/-- A plain 32 KiB no-mapper ROM image. -/
def cart32k : Cartridge := ⟨List.replicate 0x8000 0⟩

/-- The bus with the 32 KiB image loaded. -/
def busC10 : MemoryBus := ⟨fun _ => 0, some cart32k⟩

/-- Witness for C10's amended theorem: with the 32 KiB image, the read at
0xA000 indexes the raw bytes and fails. -/
theorem claim_C10_amended_witness :
    busC10.read 0xA000 = cart32k.data[0xA000]?
  ∧ (busC10.read 0xA000 = none ↔ cart32k.data.length ≤ 0xA000)
  ∧ (cart32k.data.length ≤ 0xA000 → 0xA000 ≤ 0xA000 → busC10.read 0xA000 = none) :=
  claim_C10_amended busC10 cart32k 0xA000 rfl (Or.inr ⟨by norm_num, by norm_num⟩)
